import Mathlib

/-!
Verification of the ClickUp API adapter layer of the aegis repository.

The development shallowly embeds the adapter (`src/services/clickup_service.py`)
and the request/response shapes (`src/types/clickup_types.py`).

Modelling conventions:
- JSON documents are the inductive `Json`; a response body that fails to decode
  as JSON (so that `response.json()` raises) is represented as `none`.
- Python exceptions escaping the adapter are the `Except.error` side of
  `Except PyError _`; a returned envelope is the `Except.ok` side.
- Every adapter method in the source repeats one uniform pattern (try, issue
  call, `raise_for_status`, build the envelope; two `except` clauses).  That
  pattern is embedded once as `runOperation`; each method supplies its request
  and its success mode (whole body, nested key extraction, or no content).
- httpx semantics (version pinned `>=0.24`): `raise_for_status` raises
  `HTTPStatusError` for every non-2xx status, and the error always carries the
  response; the source still guards on `error.response`, so the handler is
  embedded over an optional response.
- Pydantic validation of inbound resource payloads into the resource models is
  not modelled; payloads stay raw `Json`.  A decoded body of JSON `null`
  becomes a `data` field of `none`, as in Python.  The claims under study
  concern envelope construction, error mapping and outbound serialization,
  none of which depend on inbound shape checking, except that a non-string
  `err` value makes the envelope constructor raise, which is modelled.
-/

namespace Aegis

/-- JSON values, as decoded by `response.json()`. -/
inductive Json where
  | null
  | bool (b : Bool)
  | num (n : Int)
  | str (s : String)
  | arr (elems : List Json)
  | obj (fields : List (String × Json))

/-- Python exceptions that can escape the adapter boundary. -/
inductive PyError where
  /-- `response.json()` raised because the body is not decodable JSON. -/
  | jsonDecodeError
  /-- Unguarded `dict[key]` indexing on a dict missing the key. -/
  | keyError (key : String)
  /-- Subscripting a decoded body that is not a JSON object. -/
  | typeError
  /-- Calling `.get` on a decoded body that is not a JSON object. -/
  | attributeError
  /-- Pydantic rejected a value (missing required field, wrong type). -/
  | validationError (field : String)
  deriving Repr, DecidableEq

/-- An HTTP response obtained from the remote API.  `body = none` models a
body on which `response.json()` raises (empty or non-JSON). -/
structure HttpResponse where
  status_code : Nat
  body : Option Json

/-- Outcome of the single outbound call of an adapter method. -/
inductive TransportOutcome where
  /-- The transport produced a response, of any status. -/
  | response (r : HttpResponse)
  /-- `httpx.RequestError`: connection/DNS/timeout failure, no response;
  the payload is `str(error)`. -/
  | requestError (msg : String)

/-- The outbound HTTP request an adapter method issues. -/
structure HttpRequest where
  method : String
  url : String
  headers : List (String × String)
  json_body : Option Json
  params : List (String × Json)

/-- The generic envelope `ClickUpApiResponse[T]` of the source: fields
`data: Optional[T] = None`, `error: Optional[str] = None`, `status: int`. -/
structure ClickUpApiResponse (T : Type) where
  data : Option T
  error : Option String
  status : Nat

/-- Python `dict.get` / `dict[k]` lookup on a decoded JSON object. -/
def dictGet (fields : List (String × Json)) (k : String) : Option Json :=
  match fields with
  | [] => none
  | (k2, v) :: rest => if k2 = k then some v else dictGet rest k

/-- Passing a decoded JSON value to an `Optional` pydantic field: JSON `null`
is the Python value `None`, leaving the field unset-as-`None`. -/
def jsonToData (j : Json) : Option Json :=
  match j with
  | .null => none
  | j => some j

/-- The `except httpx.HTTPStatusError` handler shared by every adapter method:
`error = error.response.json().get("err") if error.response else str(error)` and
`status = error.response.status_code if error.response else 500`.
When the attached response body is not decodable JSON, `error.response.json()`
raises inside the handler and the exception propagates; a non-string `err`
value makes the pydantic envelope constructor raise. -/
def handleStatusError (message : String) (response : Option HttpResponse) :
    Except PyError (ClickUpApiResponse Json) :=
  match response with
  | none => .ok ⟨none, some message, 500⟩
  | some r =>
    match r.body with
    | none => .error .jsonDecodeError
    | some (.obj fields) =>
      match dictGet fields "err" with
      | none => .ok ⟨none, none, r.status_code⟩
      | some .null => .ok ⟨none, none, r.status_code⟩
      | some (.str s) => .ok ⟨none, some s, r.status_code⟩
      | some _ => .error (.validationError "error")
    | some _ => .error .attributeError

/-- How an adapter method builds `data` on the 2xx path. -/
inductive SuccessMode where
  /-- `data = response.json()`: get/create/update of a single resource. -/
  | wholeBody
  /-- `data = response.json()[k]`: list operations with a nested key. -/
  | extractKey (k : String)
  /-- DELETE operations: the body is never decoded, only the status kept. -/
  | noContent

/-- The message httpx attaches to an `HTTPStatusError`.  The source only reads
it when the error carries no response, which `raise_for_status` never
produces, so its exact content is irrelevant to every claim. -/
def statusErrorText (r : HttpResponse) : String :=
  "HTTP status error " ++ toString r.status_code

/-- The uniform body of every adapter method: on a response,
`raise_for_status` (raising for every non-2xx status, handled by
`handleStatusError` with the response attached), then the success
construction for the mode of the method; on `httpx.RequestError`, the envelope
`⟨none, str(error), 500⟩`. -/
def runOperation (mode : SuccessMode) (outcome : TransportOutcome) :
    Except PyError (ClickUpApiResponse Json) :=
  match outcome with
  | .requestError msg => .ok ⟨none, some msg, 500⟩
  | .response r =>
    if 200 ≤ r.status_code ∧ r.status_code < 300 then
      match mode with
      | .noContent => .ok ⟨none, none, r.status_code⟩
      | .wholeBody =>
        match r.body with
        | none => .error .jsonDecodeError
        | some j => .ok ⟨jsonToData j, none, r.status_code⟩
      | .extractKey k =>
        match r.body with
        | none => .error .jsonDecodeError
        | some (.obj fields) =>
          match dictGet fields k with
          | none => .error (.keyError k)
          | some v => .ok ⟨jsonToData v, none, r.status_code⟩
        | some _ => .error .typeError
    else
      handleStatusError (statusErrorText r) (some r)

/-- The set of keys of the serialized JSON body of a request, for stating
which fields appear in an outbound payload. -/
def HttpRequest.bodyKeys (req : HttpRequest) : List String :=
  match req.json_body with
  | some (.obj fields) => fields.map Prod.fst
  | _ => []

/-- One adapter method applied to its arguments: the request it would issue
and the mode with which it interprets the outcome. -/
structure AdapterCall where
  request : HttpRequest
  mode : SuccessMode

/-- Running an adapter call against the outcome of its outbound request. -/
def AdapterCall.run (c : AdapterCall) (outcome : TransportOutcome) :
    Except PyError (ClickUpApiResponse Json) :=
  runOperation c.mode outcome

/-- Serializing an `Optional` pydantic field with `model_dump()` (no
exclusion): an absent value serializes as JSON `null`. -/
def optJson {α : Type} (f : α → Json) : Option α → Json
  | none => .null
  | some v => f v

/-- A pydantic field of an update-request model: pydantic distinguishes a
field the caller never passed (`unset`, absent from `model_fields_set`) from
a field explicitly passed, possibly as `None`. -/
inductive PyField (α : Type) where
  | unset
  | set (v : Option α)
  deriving DecidableEq

/-- Contribution of one field to `model_dump(exclude_unset=True)`: set fields
serialize under their key (`None` as JSON `null`), unset fields are omitted. -/
def pyFieldDump {α : Type} (k : String) (f : α → Json) : PyField α → List (String × Json)
  | .unset => []
  | .set none => [(k, .null)]
  | .set (some v) => [(k, f v)]

/-- `CreateSpaceRequest` of the source: `name: str` (required),
`multiple_assignees: Optional[bool] = None`. -/
structure CreateSpaceRequest where
  name : String
  multiple_assignees : Option Bool

/-- Pydantic construction `CreateSpaceRequest(...)`: `name = none` models a
call that omits the required keyword `name`, which raises a validation error
before the adapter is ever invoked. -/
def CreateSpaceRequest.validate (name : Option String) (multiple_assignees : Option Bool) :
    Except PyError CreateSpaceRequest :=
  match name with
  | none => .error (.validationError "name")
  | some n => .ok ⟨n, multiple_assignees⟩

/-- Full serialization `model_dump()` used by `create_space`. -/
def CreateSpaceRequest.model_dump (r : CreateSpaceRequest) : List (String × Json) :=
  [("name", .str r.name), ("multiple_assignees", optJson Json.bool r.multiple_assignees)]

/-- `UpdateSpaceRequest` of the source: `name: Optional[str] = None`,
`multiple_assignees: Optional[bool] = None`. -/
structure UpdateSpaceRequest where
  name : PyField String
  multiple_assignees : PyField Bool

/-- Partial serialization `model_dump(exclude_unset=True)` used by
`update_space`: only fields explicitly set by the caller appear. -/
def UpdateSpaceRequest.model_dump_exclude_unset (r : UpdateSpaceRequest) : List (String × Json) :=
  pyFieldDump "name" Json.str r.name ++
    pyFieldDump "multiple_assignees" Json.bool r.multiple_assignees

/-- `CreateFolderRequest` of the source: `name: str` (required),
`hidden: Optional[bool] = None`. -/
structure CreateFolderRequest where
  name : String
  hidden : Option Bool

/-- Pydantic construction `CreateFolderRequest(...)`. -/
def CreateFolderRequest.validate (name : Option String) (hidden : Option Bool) :
    Except PyError CreateFolderRequest :=
  match name with
  | none => .error (.validationError "name")
  | some n => .ok ⟨n, hidden⟩

/-- Full serialization `model_dump()` used by `create_folder`. -/
def CreateFolderRequest.model_dump (r : CreateFolderRequest) : List (String × Json) :=
  [("name", .str r.name), ("hidden", optJson Json.bool r.hidden)]

/-- `UpdateFolderRequest` of the source: `name: Optional[str] = None`,
`hidden: Optional[bool] = None`. -/
structure UpdateFolderRequest where
  name : PyField String
  hidden : PyField Bool

/-- Partial serialization `model_dump(exclude_unset=True)` used by
`update_folder`. -/
def UpdateFolderRequest.model_dump_exclude_unset (r : UpdateFolderRequest) : List (String × Json) :=
  pyFieldDump "name" Json.str r.name ++ pyFieldDump "hidden" Json.bool r.hidden

/-- `CreateListRequest` of the source: `name: str` (required); `content`,
`due_date`, `priority`, `assignee`, `status` optional. -/
structure CreateListRequest where
  name : String
  content : Option String
  due_date : Option Int
  priority : Option Int
  assignee : Option Int
  status : Option String

/-- Pydantic construction `CreateListRequest(...)`. -/
def CreateListRequest.validate (name : Option String) (content : Option String)
    (due_date priority assignee : Option Int) (status : Option String) :
    Except PyError CreateListRequest :=
  match name with
  | none => .error (.validationError "name")
  | some n => .ok ⟨n, content, due_date, priority, assignee, status⟩

/-- Full serialization `model_dump()` used by `create_list_in_folder` and
`create_list_in_space`. -/
def CreateListRequest.model_dump (r : CreateListRequest) : List (String × Json) :=
  [("name", .str r.name), ("content", optJson Json.str r.content),
    ("due_date", optJson Json.num r.due_date), ("priority", optJson Json.num r.priority),
    ("assignee", optJson Json.num r.assignee), ("status", optJson Json.str r.status)]

/-- `UpdateListRequest` of the source: every field optional. -/
structure UpdateListRequest where
  name : PyField String
  content : PyField String
  due_date : PyField Int
  due_date_time : PyField Bool
  priority : PyField Int
  assignee : PyField Int
  unset_status : PyField Bool
  status : PyField String

/-- Partial serialization `model_dump(exclude_unset=True)` used by
`update_list`. -/
def UpdateListRequest.model_dump_exclude_unset (r : UpdateListRequest) : List (String × Json) :=
  pyFieldDump "name" Json.str r.name ++ pyFieldDump "content" Json.str r.content ++
    pyFieldDump "due_date" Json.num r.due_date ++
    pyFieldDump "due_date_time" Json.bool r.due_date_time ++
    pyFieldDump "priority" Json.num r.priority ++
    pyFieldDump "assignee" Json.num r.assignee ++
    pyFieldDump "unset_status" Json.bool r.unset_status ++
    pyFieldDump "status" Json.str r.status

/-- Keyword arguments of a `CreateTaskRequest(...)` construction; every field
defaults to absent.  Mirrors the field list of the source model. -/
structure CreateTaskKwargs where
  name : Option String := none
  description : Option String := none
  assignees : Option (List Int) := none
  archived : Option Bool := none
  group_assignees : Option (List String) := none
  tags : Option (List String) := none
  status : Option String := none
  priority : Option Int := none
  due_date : Option Int := none
  due_date_time : Option Bool := none
  time_estimate : Option Int := none
  start_date : Option Int := none
  start_date_time : Option Bool := none
  points : Option Int := none
  notify_all : Option Bool := none
  parent : Option String := none
  markdown_content : Option String := none
  links_to : Option String := none
  check_required_custom_fields : Option Bool := none
  custom_fields : Option (List (List (String × Json))) := none
  custom_item_id : Option Int := none

/-- `CreateTaskRequest` of the source: `name: str` required, twenty optional
fields.  `points: Optional[float]` is embedded over `Int`; no claim computes
with it and validation never inspects it. -/
structure CreateTaskRequest where
  name : String
  description : Option String
  assignees : Option (List Int)
  archived : Option Bool
  group_assignees : Option (List String)
  tags : Option (List String)
  status : Option String
  priority : Option Int
  due_date : Option Int
  due_date_time : Option Bool
  time_estimate : Option Int
  start_date : Option Int
  start_date_time : Option Bool
  points : Option Int
  notify_all : Option Bool
  parent : Option String
  markdown_content : Option String
  links_to : Option String
  check_required_custom_fields : Option Bool
  custom_fields : Option (List (List (String × Json)))
  custom_item_id : Option Int

/-- Pydantic construction `CreateTaskRequest(**kwargs)`: only `name` is
required; any other absent keyword stays `None`. -/
def CreateTaskRequest.validate (kw : CreateTaskKwargs) : Except PyError CreateTaskRequest :=
  match kw.name with
  | none => .error (.validationError "name")
  | some n =>
    .ok ⟨n, kw.description, kw.assignees, kw.archived, kw.group_assignees, kw.tags,
      kw.status, kw.priority, kw.due_date, kw.due_date_time, kw.time_estimate,
      kw.start_date, kw.start_date_time, kw.points, kw.notify_all, kw.parent,
      kw.markdown_content, kw.links_to, kw.check_required_custom_fields,
      kw.custom_fields, kw.custom_item_id⟩

/-- The adapter class: `__init__` stores the caller-supplied API key and the
fixed base URL. -/
structure ClickUpService where
  api_key : String
  base_url : String

/-- `ClickUpService(api_key)`. -/
def ClickUpService.init (api_key : String) : ClickUpService :=
  ⟨api_key, "https://api.clickup.com/api/v2"⟩

/-- `_get_headers`: authorization token and JSON content type. -/
def ClickUpService.get_headers (svc : ClickUpService) : List (String × String) :=
  [("Authorization", svc.api_key), ("Content-Type", "application/json")]

/-- `get_workspaces`: GET `{base_url}/team`, data extracted from `"teams"`. -/
def ClickUpService.get_workspaces (svc : ClickUpService) : AdapterCall :=
  ⟨⟨"GET", svc.base_url ++ "/team", svc.get_headers, none, []⟩, .extractKey "teams"⟩

/-- `get_workspace`: GET `{base_url}/team/{workspace_id}`, whole body. -/
def ClickUpService.get_workspace (svc : ClickUpService) (workspace_id : String) : AdapterCall :=
  ⟨⟨"GET", svc.base_url ++ "/team/" ++ workspace_id, svc.get_headers, none, []⟩, .wholeBody⟩

/-- `get_spaces`: GET `{base_url}/team/{workspace_id}/space`, extracted from
`"spaces"`. -/
def ClickUpService.get_spaces (svc : ClickUpService) (workspace_id : String) : AdapterCall :=
  ⟨⟨"GET", svc.base_url ++ "/team/" ++ workspace_id ++ "/space", svc.get_headers, none, []⟩,
    .extractKey "spaces"⟩

/-- `get_space`: GET `{base_url}/space/{space_id}`, whole body. -/
def ClickUpService.get_space (svc : ClickUpService) (space_id : String) : AdapterCall :=
  ⟨⟨"GET", svc.base_url ++ "/space/" ++ space_id, svc.get_headers, none, []⟩, .wholeBody⟩

/-- `create_space`: POST `{base_url}/team/{workspace_id}/space` with
`json=space.model_dump()`, whole body. -/
def ClickUpService.create_space (svc : ClickUpService) (workspace_id : String)
    (space : CreateSpaceRequest) : AdapterCall :=
  ⟨⟨"POST", svc.base_url ++ "/team/" ++ workspace_id ++ "/space", svc.get_headers,
    some (.obj space.model_dump), []⟩, .wholeBody⟩

/-- `update_space`: PUT `{base_url}/space/{space_id}` with
`json=updates.model_dump(exclude_unset=True)`, whole body. -/
def ClickUpService.update_space (svc : ClickUpService) (space_id : String)
    (updates : UpdateSpaceRequest) : AdapterCall :=
  ⟨⟨"PUT", svc.base_url ++ "/space/" ++ space_id, svc.get_headers,
    some (.obj updates.model_dump_exclude_unset), []⟩, .wholeBody⟩

/-- `delete_space`: DELETE `{base_url}/space/{space_id}`, no content. -/
def ClickUpService.delete_space (svc : ClickUpService) (space_id : String) : AdapterCall :=
  ⟨⟨"DELETE", svc.base_url ++ "/space/" ++ space_id, svc.get_headers, none, []⟩, .noContent⟩

/-- `get_folders`: GET `{base_url}/space/{space_id}/folder`, extracted from
`"folders"`. -/
def ClickUpService.get_folders (svc : ClickUpService) (space_id : String) : AdapterCall :=
  ⟨⟨"GET", svc.base_url ++ "/space/" ++ space_id ++ "/folder", svc.get_headers, none, []⟩,
    .extractKey "folders"⟩

/-- `get_folder`: GET `{base_url}/folder/{folder_id}`, whole body. -/
def ClickUpService.get_folder (svc : ClickUpService) (folder_id : String) : AdapterCall :=
  ⟨⟨"GET", svc.base_url ++ "/folder/" ++ folder_id, svc.get_headers, none, []⟩, .wholeBody⟩

/-- `create_folder`: POST `{base_url}/space/{space_id}/folder` with
`json=folder.model_dump()`, whole body. -/
def ClickUpService.create_folder (svc : ClickUpService) (space_id : String)
    (folder : CreateFolderRequest) : AdapterCall :=
  ⟨⟨"POST", svc.base_url ++ "/space/" ++ space_id ++ "/folder", svc.get_headers,
    some (.obj folder.model_dump), []⟩, .wholeBody⟩

/-- `update_folder`: PUT `{base_url}/folder/{folder_id}` with
`json=updates.model_dump(exclude_unset=True)`, whole body. -/
def ClickUpService.update_folder (svc : ClickUpService) (folder_id : String)
    (updates : UpdateFolderRequest) : AdapterCall :=
  ⟨⟨"PUT", svc.base_url ++ "/folder/" ++ folder_id, svc.get_headers,
    some (.obj updates.model_dump_exclude_unset), []⟩, .wholeBody⟩

/-- `delete_folder`: DELETE `{base_url}/folder/{folder_id}`, no content. -/
def ClickUpService.delete_folder (svc : ClickUpService) (folder_id : String) : AdapterCall :=
  ⟨⟨"DELETE", svc.base_url ++ "/folder/" ++ folder_id, svc.get_headers, none, []⟩, .noContent⟩

/-- `get_lists`: GET `{base_url}/folder/{folder_id}/list`, extracted from
`"lists"`. -/
def ClickUpService.get_lists (svc : ClickUpService) (folder_id : String) : AdapterCall :=
  ⟨⟨"GET", svc.base_url ++ "/folder/" ++ folder_id ++ "/list", svc.get_headers, none, []⟩,
    .extractKey "lists"⟩

/-- `get_lists_in_space`: GET `{base_url}/space/{space_id}/list`, extracted
from `"lists"`. -/
def ClickUpService.get_lists_in_space (svc : ClickUpService) (space_id : String) : AdapterCall :=
  ⟨⟨"GET", svc.base_url ++ "/space/" ++ space_id ++ "/list", svc.get_headers, none, []⟩,
    .extractKey "lists"⟩

/-- `get_list`: GET `{base_url}/list/{list_id}`, whole body. -/
def ClickUpService.get_list (svc : ClickUpService) (list_id : String) : AdapterCall :=
  ⟨⟨"GET", svc.base_url ++ "/list/" ++ list_id, svc.get_headers, none, []⟩, .wholeBody⟩

/-- `create_list_in_folder`: POST `{base_url}/folder/{folder_id}/list` with
`json=list_data.model_dump()`, whole body. -/
def ClickUpService.create_list_in_folder (svc : ClickUpService) (folder_id : String)
    (list_data : CreateListRequest) : AdapterCall :=
  ⟨⟨"POST", svc.base_url ++ "/folder/" ++ folder_id ++ "/list", svc.get_headers,
    some (.obj list_data.model_dump), []⟩, .wholeBody⟩

/-- `create_list_in_space`: POST `{base_url}/space/{space_id}/list` with
`json=list_data.model_dump()`, whole body. -/
def ClickUpService.create_list_in_space (svc : ClickUpService) (space_id : String)
    (list_data : CreateListRequest) : AdapterCall :=
  ⟨⟨"POST", svc.base_url ++ "/space/" ++ space_id ++ "/list", svc.get_headers,
    some (.obj list_data.model_dump), []⟩, .wholeBody⟩

/-- `update_list`: PUT `{base_url}/list/{list_id}` with
`json=updates.model_dump(exclude_unset=True)`, whole body. -/
def ClickUpService.update_list (svc : ClickUpService) (list_id : String)
    (updates : UpdateListRequest) : AdapterCall :=
  ⟨⟨"PUT", svc.base_url ++ "/list/" ++ list_id, svc.get_headers,
    some (.obj updates.model_dump_exclude_unset), []⟩, .wholeBody⟩

/-- `delete_list`: DELETE `{base_url}/list/{list_id}`, no content. -/
def ClickUpService.delete_list (svc : ClickUpService) (list_id : String) : AdapterCall :=
  ⟨⟨"DELETE", svc.base_url ++ "/list/" ++ list_id, svc.get_headers, none, []⟩, .noContent⟩

/-- `get_tasks`: GET `{base_url}/list/{list_id}/task`, extracted from
`"tasks"`.  The method takes only `list_id`; no query parameters are built. -/
def ClickUpService.get_tasks (svc : ClickUpService) (list_id : String) : AdapterCall :=
  ⟨⟨"GET", svc.base_url ++ "/list/" ++ list_id ++ "/task", svc.get_headers, none, []⟩,
    .extractKey "tasks"⟩

/-- A caller-side create-space round: construct `CreateSpaceRequest(...)` from
keyword arguments, then invoke `create_space`.  The second component records
every outbound request issued; a failed construction issues none. -/
def create_space_flow (svc : ClickUpService) (workspace_id : String)
    (name : Option String) (multiple_assignees : Option Bool) (outcome : TransportOutcome) :
    Except PyError (ClickUpApiResponse Json) × List HttpRequest :=
  match CreateSpaceRequest.validate name multiple_assignees with
  | .error e => (.error e, [])
  | .ok req =>
    ((svc.create_space workspace_id req).run outcome, [(svc.create_space workspace_id req).request])

/-- A caller-side create-folder round, as `create_space_flow`. -/
def create_folder_flow (svc : ClickUpService) (space_id : String)
    (name : Option String) (hidden : Option Bool) (outcome : TransportOutcome) :
    Except PyError (ClickUpApiResponse Json) × List HttpRequest :=
  match CreateFolderRequest.validate name hidden with
  | .error e => (.error e, [])
  | .ok req =>
    ((svc.create_folder space_id req).run outcome, [(svc.create_folder space_id req).request])

/-- A caller-side create-list round through `create_list_in_folder`. -/
def create_list_in_folder_flow (svc : ClickUpService) (folder_id : String)
    (name content : Option String) (due_date priority assignee : Option Int)
    (status : Option String) (outcome : TransportOutcome) :
    Except PyError (ClickUpApiResponse Json) × List HttpRequest :=
  match CreateListRequest.validate name content due_date priority assignee status with
  | .error e => (.error e, [])
  | .ok req =>
    ((svc.create_list_in_folder folder_id req).run outcome,
      [(svc.create_list_in_folder folder_id req).request])

/-- A caller-side create-list round through `create_list_in_space`. -/
def create_list_in_space_flow (svc : ClickUpService) (space_id : String)
    (name content : Option String) (due_date priority assignee : Option Int)
    (status : Option String) (outcome : TransportOutcome) :
    Except PyError (ClickUpApiResponse Json) × List HttpRequest :=
  match CreateListRequest.validate name content due_date priority assignee status with
  | .error e => (.error e, [])
  | .ok req =>
    ((svc.create_list_in_space space_id req).run outcome,
      [(svc.create_list_in_space space_id req).request])

/-! Helper lemmas shared by the claim theorems. -/

/-- An envelope produced by the shared HTTP-error handler always leaves `data`
unset. -/
theorem handleStatusError_ok_data_none (msg : String) (resp : Option HttpResponse)
    (e : ClickUpApiResponse Json) (h : handleStatusError msg resp = .ok e) :
    e.data = none := by
  unfold handleStatusError at h
  repeat' split at h
  all_goals first
    | exact Except.noConfusion h
    | (injection h with h; subst h; rfl)

/-- An envelope produced by the uniform dispatch never has both `data` and
`error` populated: every success construction leaves `error` unset and every
handler construction leaves `data` unset. -/
theorem runOperation_ok_exclusive (mode : SuccessMode) (outcome : TransportOutcome)
    (e : ClickUpApiResponse Json) (h : runOperation mode outcome = .ok e) :
    ¬ (e.data.isSome ∧ e.error.isSome) := by
  unfold runOperation at h
  split at h
  · injection h with h
    subst h
    simp
  · split at h
    · repeat' split at h
      all_goals first
        | exact Except.noConfusion h
        | (injection h with h; subst h; simp)
    · have hd := handleStatusError_ok_data_none _ _ _ h
      intro hboth
      rw [hd] at hboth
      exact absurd hboth.1 (by simp)

/-- Every key occurring in the dump of one pydantic field is the key of that field. -/
theorem mem_keys_pyFieldDump {α : Type} {k2 k : String} {f : α → Json} {v : PyField α}
    (h : k2 ∈ (pyFieldDump k f v).map Prod.fst) : k2 = k := by
  cases v with
  | unset => simp [pyFieldDump] at h
  | set o => cases o <;> simp [pyFieldDump] at h <;> exact h

/-- A key absent from both sides of an append of dumped fields is absent from
the append. -/
theorem not_mem_keys_append {k : String} {l1 l2 : List (String × Json)}
    (h1 : k ∉ l1.map Prod.fst) (h2 : k ∉ l2.map Prod.fst) :
    k ∉ (l1 ++ l2).map Prod.fst := by
  simp only [List.map_append, List.mem_append]
  intro h
  rcases h with h | h
  · exact h1 h
  · exact h2 h

/-- An unset pydantic field contributes no key to the dump. -/
theorem not_mem_keys_unset_dump {α : Type} (k2 k : String) (f : α → Json) :
    k2 ∉ (pyFieldDump k f .unset).map Prod.fst := by
  simp [pyFieldDump]

/-- A dumped field never contributes a key other than its own. -/
theorem not_mem_keys_other_dump {α : Type} {k2 k : String} (hne : k2 ≠ k)
    (f : α → Json) (v : PyField α) : k2 ∉ (pyFieldDump k f v).map Prod.fst :=
  fun h => hne (mem_keys_pyFieldDump h)

/-! Claim theorems. -/

/-- C1, counterexample.  When the remote responds with an HTTP error status
and a body that is not decodable JSON, the call
`error.response.json()` raises and the decode error propagates past the
adapter boundary: the adapter does not fall back to the raw exception text
on a decode failure, contradicting the claim. -/
theorem get_space_404_undecodable_body_raises :
    ((ClickUpService.init "key").get_space "123").run (.response ⟨404, none⟩) =
      .error .jsonDecodeError :=
  rfl

/-- C1, amended.  On an HTTP error status whose body decodes to a JSON object
with a string `err` field, every adapter operation returns an envelope
carrying that message and the remote status; an `HTTPStatusError` without an
attached response is wrapped as the raw exception text with status 500; but
when the error body fails to decode as JSON, the decode exception propagates
past the adapter instead of any fallback. -/
theorem http_error_status_wrapped (mode : SuccessMode) (r : HttpResponse)
    (fields : List (String × Json)) (s msg : String)
    (hstat : ¬ (200 ≤ r.status_code ∧ r.status_code < 300)) :
    (r.body = some (.obj fields) → dictGet fields "err" = some (.str s) →
      runOperation mode (.response r) = .ok ⟨none, some s, r.status_code⟩) ∧
    handleStatusError msg none = .ok ⟨none, some msg, 500⟩ ∧
    (r.body = none → runOperation mode (.response r) = .error .jsonDecodeError) := by
  refine ⟨?_, rfl, ?_⟩
  · intro hb herr
    simp only [runOperation, if_neg hstat, handleStatusError, hb, herr]
  · intro hb
    simp only [runOperation, if_neg hstat, handleStatusError, hb]

/-- C1, witness for `http_error_status_wrapped` at concrete inputs: a 404 with
body `{"err": "oops"}`, a responseless error with text `m`, and a 502 with an
undecodable body. -/
theorem http_error_status_wrapped_witness :
    runOperation .wholeBody (.response ⟨404, some (.obj [("err", .str "oops")])⟩) =
      .ok ⟨none, some "oops", 404⟩ ∧
    handleStatusError "m" none = .ok ⟨none, some "m", 500⟩ ∧
    runOperation .wholeBody (.response ⟨502, none⟩) = .error .jsonDecodeError :=
  ⟨(http_error_status_wrapped .wholeBody ⟨404, some (.obj [("err", .str "oops")])⟩
      [("err", .str "oops")] "oops" "m" (by decide)).1 rfl rfl,
    (http_error_status_wrapped .wholeBody ⟨502, none⟩ [] "x" "m" (by decide)).2.1,
    (http_error_status_wrapped .wholeBody ⟨502, none⟩ [] "x" "m" (by decide)).2.2 rfl⟩

/-- C2.  A get-by-ID operation receiving an HTTP 404 whose body is
`{"err": "Space not found"}` returns the envelope with that error message,
status 404 and no data. -/
theorem get_space_404_not_found_envelope (svc : ClickUpService) (space_id : String) :
    (svc.get_space space_id).run
        (.response ⟨404, some (.obj [("err", .str "Space not found")])⟩) =
      .ok ⟨none, some "Space not found", 404⟩ :=
  rfl

/-- C3.  On a transport failure with no HTTP status available, every adapter
operation returns the envelope with status 500, no data, and the error set to
the exception text, which is non-empty whenever the transport message is;
no exception escapes. -/
theorem transport_failure_envelope (c : AdapterCall) (msg : String) (hmsg : msg ≠ "") :
    c.run (.requestError msg) = .ok ⟨none, some msg, 500⟩ ∧
    ∃ s, s ≠ "" ∧ c.run (.requestError msg) = .ok ⟨none, some s, 500⟩ :=
  ⟨rfl, msg, hmsg, rfl⟩

/-- C3, witness for `transport_failure_envelope`: `get_workspaces` on a
connection failure. -/
theorem transport_failure_envelope_witness :
    ((ClickUpService.init "key").get_workspaces).run (.requestError "Connection refused") =
      .ok ⟨none, some "Connection refused", 500⟩ :=
  (transport_failure_envelope ((ClickUpService.init "key").get_workspaces)
    "Connection refused" (by decide)).1

/-- C4.  Every update operation serializes its request with
`model_dump(exclude_unset=True)`: a field the caller left unset contributes no
key to the outbound JSON payload, for every field of `UpdateSpaceRequest`,
`UpdateFolderRequest` and `UpdateListRequest`; and
`UpdateSpaceRequest(name="X")` serializes to exactly `{"name": "X"}`. -/
theorem update_unset_fields_not_serialized (svc : ClickUpService) (rid : String)
    (r1 : UpdateSpaceRequest) (r2 : UpdateFolderRequest) (r3 : UpdateListRequest) :
    ((svc.update_space rid r1).request.json_body =
      some (.obj r1.model_dump_exclude_unset)) ∧
    (r1.name = .unset → "name" ∉ (svc.update_space rid r1).request.bodyKeys) ∧
    (r1.multiple_assignees = .unset →
      "multiple_assignees" ∉ (svc.update_space rid r1).request.bodyKeys) ∧
    ((svc.update_folder rid r2).request.json_body =
      some (.obj r2.model_dump_exclude_unset)) ∧
    (r2.name = .unset → "name" ∉ (svc.update_folder rid r2).request.bodyKeys) ∧
    (r2.hidden = .unset → "hidden" ∉ (svc.update_folder rid r2).request.bodyKeys) ∧
    ((svc.update_list rid r3).request.json_body =
      some (.obj r3.model_dump_exclude_unset)) ∧
    (r3.name = .unset → "name" ∉ (svc.update_list rid r3).request.bodyKeys) ∧
    (r3.content = .unset → "content" ∉ (svc.update_list rid r3).request.bodyKeys) ∧
    (r3.due_date = .unset → "due_date" ∉ (svc.update_list rid r3).request.bodyKeys) ∧
    (r3.due_date_time = .unset →
      "due_date_time" ∉ (svc.update_list rid r3).request.bodyKeys) ∧
    (r3.priority = .unset → "priority" ∉ (svc.update_list rid r3).request.bodyKeys) ∧
    (r3.assignee = .unset → "assignee" ∉ (svc.update_list rid r3).request.bodyKeys) ∧
    (r3.unset_status = .unset →
      "unset_status" ∉ (svc.update_list rid r3).request.bodyKeys) ∧
    (r3.status = .unset → "status" ∉ (svc.update_list rid r3).request.bodyKeys) ∧
    (svc.update_space rid ⟨.set (some "X"), .unset⟩).request.json_body =
      some (.obj [("name", .str "X")]) := by
  refine ⟨rfl, ?_, ?_, rfl, ?_, ?_, rfl, ?_, ?_, ?_, ?_, ?_, ?_, ?_, ?_, rfl⟩
  all_goals intro h
  all_goals
    simp only [ClickUpService.update_space, ClickUpService.update_folder,
      ClickUpService.update_list, HttpRequest.bodyKeys,
      UpdateSpaceRequest.model_dump_exclude_unset,
      UpdateFolderRequest.model_dump_exclude_unset,
      UpdateListRequest.model_dump_exclude_unset, h]
  all_goals repeat' apply not_mem_keys_append
  all_goals first
    | exact not_mem_keys_unset_dump _ _ _
    | exact not_mem_keys_other_dump (by decide) _ _

/-- C4, witness for `update_unset_fields_not_serialized`: an update-space
request that only sets `multiple_assignees` carries no `name` key, and one
that only sets `name` carries no `multiple_assignees` key. -/
theorem update_unset_fields_not_serialized_witness :
    "name" ∉ ((ClickUpService.init "key").update_space "1"
      ⟨.unset, .set (some true)⟩).request.bodyKeys ∧
    "multiple_assignees" ∉ ((ClickUpService.init "key").update_space "1"
      ⟨.set (some "X"), .unset⟩).request.bodyKeys :=
  ⟨(update_unset_fields_not_serialized (ClickUpService.init "key") "1"
      ⟨.unset, .set (some true)⟩ ⟨.unset, .unset⟩
      ⟨.unset, .unset, .unset, .unset, .unset, .unset, .unset, .unset⟩).2.1 rfl,
    (update_unset_fields_not_serialized (ClickUpService.init "key") "1"
      ⟨.set (some "X"), .unset⟩ ⟨.unset, .unset⟩
      ⟨.unset, .unset, .unset, .unset, .unset, .unset, .unset, .unset⟩).2.2.1 rfl⟩

/-- C5, counterexample.  The task-listing operation `get_tasks` issues its
request with an empty query-parameter map: nothing serializes `archived`,
`page` or `subtasks`, and the operation takes no such arguments. -/
theorem get_tasks_no_query_parameters_serialized :
    ((ClickUpService.init "key").get_tasks "123").request.params = [] ∧
    ((ClickUpService.init "key").get_tasks "123").request.params ≠
      [("archived", .str "true"), ("page", .num 2), ("subtasks", .str "true")] := by
  refine ⟨rfl, ?_⟩
  intro h
  exact List.noConfusion h

/-- C5, amended.  The task-listing operation accepts only the list
identifier: for every service and list ID it issues
GET `{base_url}/list/{list_id}/task` with the standard headers, no body and
no query parameters, extracting `"tasks"` from the response. -/
theorem get_tasks_request_shape (svc : ClickUpService) (list_id : String) :
    svc.get_tasks list_id =
      ⟨⟨"GET", svc.base_url ++ "/list/" ++ list_id ++ "/task", svc.get_headers, none, []⟩,
        .extractKey "tasks"⟩ ∧
    (svc.get_tasks list_id).request.params = [] :=
  ⟨rfl, rfl⟩

/-- C6.  Deletion operations never decode the response body: on any 2xx
response, including one whose body is not decodable JSON, they return the
envelope with the HTTP status and neither data nor error, raising nothing. -/
theorem delete_never_decodes_body (svc : ClickUpService) (rid : String) (status : Nat)
    (body : Option Json) (h2 : 200 ≤ status) (h3 : status < 300) :
    (svc.delete_space rid).run (.response ⟨status, body⟩) = .ok ⟨none, none, status⟩ ∧
    (svc.delete_folder rid).run (.response ⟨status, body⟩) = .ok ⟨none, none, status⟩ ∧
    (svc.delete_list rid).run (.response ⟨status, body⟩) = .ok ⟨none, none, status⟩ := by
  refine ⟨?_, ?_, ?_⟩ <;>
    simp [ClickUpService.delete_space, ClickUpService.delete_folder,
      ClickUpService.delete_list, AdapterCall.run, runOperation, h2, h3]

/-- C6, witness for `delete_never_decodes_body`: a 200 response with an
empty (undecodable) body. -/
theorem delete_never_decodes_body_witness :
    ((ClickUpService.init "key").delete_space "1").run (.response ⟨200, none⟩) =
      .ok ⟨none, none, 200⟩ ∧
    ((ClickUpService.init "key").delete_list "1").run (.response ⟨200, none⟩) =
      .ok ⟨none, none, 200⟩ :=
  ⟨(delete_never_decodes_body (ClickUpService.init "key") "1" 200 none
      (by decide) (by decide)).1,
    (delete_never_decodes_body (ClickUpService.init "key") "1" 200 none
      (by decide) (by decide)).2.2⟩

/-- C7, counterexample.  A successful deletion returns an envelope in which
`data` and `error` are both unset, so it is not the case that exactly one of
them is populated on every adapter outcome. -/
theorem delete_success_envelope_neither_populated :
    ((ClickUpService.init "key").delete_space "123").run (.response ⟨200, none⟩) =
      .ok ⟨none, none, 200⟩ ∧
    ((⟨none, none, 200⟩ : ClickUpApiResponse Json).data.isSome ||
      (⟨none, none, 200⟩ : ClickUpApiResponse Json).error.isSome) = false :=
  ⟨rfl, rfl⟩

/-- C7, amended.  Every envelope returned by any adapter operation satisfies
the one-sided invariant: `data` and `error` are never both populated, so a
non-null `error` forces `data = None`.  Exactly-one does not hold: deletion
successes and empty-body outcomes leave both unset. -/
theorem adapter_envelope_never_both_populated (c : AdapterCall)
    (outcome : TransportOutcome) (e : ClickUpApiResponse Json)
    (h : c.run outcome = .ok e) : ¬ (e.data.isSome ∧ e.error.isSome) :=
  runOperation_ok_exclusive c.mode outcome e h

/-- C7, witness for `adapter_envelope_never_both_populated`: the envelope of
`get_space` on a transport failure. -/
theorem adapter_envelope_never_both_populated_witness :
    ¬ (((⟨none, some "boom", 500⟩ : ClickUpApiResponse Json).data.isSome) ∧
      ((⟨none, some "boom", 500⟩ : ClickUpApiResponse Json).error.isSome)) :=
  adapter_envelope_never_both_populated ((ClickUpService.init "key").get_space "1")
    (.requestError "boom") ⟨none, some "boom", 500⟩ rfl

/-- C8.  Every create operation fails validation before any outbound network
call when the required `name` field is missing: the pydantic construction of
the request raises and the recorded request trace stays empty, for every
service, identifier, remaining keyword argument and transport behaviour. -/
theorem create_missing_name_no_network_call (svc : ClickUpService) (rid : String)
    (multiple_assignees hidden : Option Bool) (content status : Option String)
    (due_date priority assignee : Option Int) (outcome : TransportOutcome) :
    create_space_flow svc rid none multiple_assignees outcome =
      (.error (.validationError "name"), []) ∧
    create_folder_flow svc rid none hidden outcome =
      (.error (.validationError "name"), []) ∧
    create_list_in_folder_flow svc rid none content due_date priority assignee status
        outcome = (.error (.validationError "name"), []) ∧
    create_list_in_space_flow svc rid none content due_date priority assignee status
        outcome = (.error (.validationError "name"), []) :=
  ⟨rfl, rfl, rfl, rfl⟩

/-- C9, counterexample.  Validation of every create-request shape accepts the
empty string as `name`: no non-emptiness check exists, contradicting the
claim that an empty name is rejected. -/
theorem create_empty_name_accepted :
    CreateSpaceRequest.validate (some "") none = .ok ⟨"", none⟩ ∧
    CreateFolderRequest.validate (some "") none = .ok ⟨"", none⟩ ∧
    CreateListRequest.validate (some "") none none none none none =
      .ok ⟨"", none, none, none, none, none⟩ ∧
    CreateTaskRequest.validate { name := some "" } =
      .ok ⟨"", none, none, none, none, none, none, none, none, none, none, none, none,
        none, none, none, none, none, none, none, none⟩ :=
  ⟨rfl, rfl, rfl, rfl⟩

/-- C9, amended.  The required `name` of every create-request shape must be
present — a construction that omits it is rejected — but validation does not
require it to be non-empty: an explicit empty-string name is accepted. -/
theorem create_name_presence_checked_emptiness_not (multiple_assignees hidden : Option Bool)
    (content status : Option String) (due_date priority assignee : Option Int) :
    CreateSpaceRequest.validate none multiple_assignees =
      .error (.validationError "name") ∧
    CreateSpaceRequest.validate (some "") multiple_assignees =
      .ok ⟨"", multiple_assignees⟩ ∧
    CreateFolderRequest.validate none hidden = .error (.validationError "name") ∧
    CreateFolderRequest.validate (some "") hidden = .ok ⟨"", hidden⟩ ∧
    CreateListRequest.validate none content due_date priority assignee status =
      .error (.validationError "name") ∧
    CreateListRequest.validate (some "") content due_date priority assignee status =
      .ok ⟨"", content, due_date, priority, assignee, status⟩ ∧
    CreateTaskRequest.validate {} = .error (.validationError "name") ∧
    CreateTaskRequest.validate { name := some "" } =
      .ok ⟨"", none, none, none, none, none, none, none, none, none, none, none, none,
        none, none, none, none, none, none, none, none⟩ :=
  ⟨rfl, rfl, rfl, rfl, rfl, rfl, rfl, rfl⟩

/-- C10.  For every list-returning operation, a 2xx response whose decoded
JSON object lacks the nested extraction key makes the unguarded dictionary
indexing raise a `KeyError` that propagates to the caller in place of any
envelope. -/
theorem listing_missing_key_raises (svc : ClickUpService) (rid : String) (status : Nat)
    (fields : List (String × Json)) (h2 : 200 ≤ status) (h3 : status < 300) :
    (dictGet fields "teams" = none →
      (svc.get_workspaces).run (.response ⟨status, some (.obj fields)⟩) =
        .error (.keyError "teams")) ∧
    (dictGet fields "spaces" = none →
      (svc.get_spaces rid).run (.response ⟨status, some (.obj fields)⟩) =
        .error (.keyError "spaces")) ∧
    (dictGet fields "folders" = none →
      (svc.get_folders rid).run (.response ⟨status, some (.obj fields)⟩) =
        .error (.keyError "folders")) ∧
    (dictGet fields "lists" = none →
      (svc.get_lists rid).run (.response ⟨status, some (.obj fields)⟩) =
        .error (.keyError "lists") ∧
      (svc.get_lists_in_space rid).run (.response ⟨status, some (.obj fields)⟩) =
        .error (.keyError "lists")) ∧
    (dictGet fields "tasks" = none →
      (svc.get_tasks rid).run (.response ⟨status, some (.obj fields)⟩) =
        .error (.keyError "tasks")) := by
  refine ⟨?_, ?_, ?_, fun hk => ⟨?_, ?_⟩, ?_⟩
  all_goals try intro hk
  all_goals
    simp [ClickUpService.get_workspaces, ClickUpService.get_spaces,
      ClickUpService.get_folders, ClickUpService.get_lists,
      ClickUpService.get_lists_in_space, ClickUpService.get_tasks,
      AdapterCall.run, runOperation, h2, h3, hk]

/-- C10, witness for `listing_missing_key_raises`: a 200 response whose body
is the empty JSON object. -/
theorem listing_missing_key_raises_witness :
    ((ClickUpService.init "key").get_workspaces).run (.response ⟨200, some (.obj [])⟩) =
      .error (.keyError "teams") ∧
    (((ClickUpService.init "key").get_tasks "1")).run (.response ⟨200, some (.obj [])⟩) =
      .error (.keyError "tasks") := by
  have h := listing_missing_key_raises (ClickUpService.init "key") "1" 200 []
    (by decide) (by decide)
  exact ⟨h.1 rfl, h.2.2.2.2 rfl⟩

end Aegis
